import Mathlib

/-!
Verification of the Somos-Server advisory subsystem (trend calculator,
prompt builder, advisory gateway, advisory orchestrator).

Modelling conventions, used throughout:
* JavaScript numbers are modelled as rationals (`ℚ`); timestamps as
  naturals (milliseconds since the epoch).
* JS objects with possibly-absent fields are modelled as structures with
  `Option` fields (`none` = the field is absent / `undefined`).
* JS truthiness is modelled explicitly wherever the source relies on it
  (`x || d`, `filter(w => w)`, `if (!data.id)`).
* Fallible steps return `Except`; a JS `try/catch` that swallows the
  error is modelled by the corresponding `match` that maps `.error` back
  to a success value.
-/

namespace Somos

/-- JS `Math.round`: round half toward positive infinity. -/
def jsRound (q : ℚ) : ℤ := ⌊q + 1/2⌋

/-! ### Trend Calculator: `ProgressController.calculateWeightTrend` -/

/-- One entry of the weight/progress series handed to
`ProgressController.calculateWeightTrend`: a `DailyLog` document with a
`timestamp` and an optional numeric `weight`. -/
structure WeightLog where
  ts : ℕ
  weight : Option ℚ
  deriving DecidableEq

/-- The object literal returned by `calculateWeightTrend`: `{trend, slope}`. -/
structure WeightTrendResult where
  trend : String
  slope : ℚ
  deriving DecidableEq

/-- `weightLogs.map(log => log.weight).filter(w => w)`: drops absent
(`undefined`/`null`) weights and, by JS truthiness, also a weight of `0`. -/
def truthyWeights (logs : List WeightLog) : List ℚ :=
  (logs.filterMap (fun l => l.weight)).filter (fun w => w != 0)

/-- `ProgressController.calculateWeightTrend` (userController.js):
guards for fewer than 2 logs / fewer than 2 truthy weights, then a simple
linear regression of weight against index `0..n-1` computed with
`reduce`-style folds, classified against the `±0.1` thresholds. -/
def calculateWeightTrend (weightLogs : List WeightLog) : WeightTrendResult :=
  if weightLogs.length < 2 then ⟨"insufficient_data", 0⟩
  else
    let weights := truthyWeights weightLogs
    if weights.length < 2 then ⟨"insufficient_data", 0⟩
    else
      let n : ℚ := weights.length
      let sumX : ℚ := (List.range weights.length).foldl (fun s (i : ℕ) => s + (i : ℚ)) 0
      let sumY : ℚ := weights.foldl (fun s v => s + v) 0
      let sumXY : ℚ :=
        (List.range weights.length).foldl (fun s (i : ℕ) => s + (i : ℚ) * weights.getD i 0) 0
      let sumXX : ℚ :=
        (List.range weights.length).foldl (fun s (i : ℕ) => s + (i : ℚ) * (i : ℚ)) 0
      let slope := (n * sumXY - sumX * sumY) / (n * sumXX - sumX * sumX)
      ⟨if slope > 1/10 then "increasing"
        else if slope < -(1/10) then "decreasing" else "stable", slope⟩

/-! ### Trend Calculator: `AIService.calculateTrends` / `calculateConsistency` -/

/-- One progress entry as consumed by `AIService.calculateTrends` and
`AIService.calculateConsistency`. -/
structure ProgressEntry where
  ts : ℕ := 0
  weight : Option ℚ := none
  workoutCompleted : Bool := false
  deriving DecidableEq

/-- The object returned by `AIService.calculateTrends`.  The insufficient-data
branches return only `{trend}`; the main branch adds `totalChange`,
`weeklyChange` and `consistency` (hence the `Option` fields). -/
structure TrendsResult where
  trend : String
  totalChange : Option ℚ := none
  weeklyChange : Option ℚ := none
  consistency : Option ℤ := none
  deriving DecidableEq

/-- `AIService.calculateConsistency`: the rounded percentage of entries with
a truthy `workoutCompleted` flag. -/
def calculateConsistency (progressData : List ProgressEntry) : ℤ :=
  jsRound ((((progressData.filter (fun p => p.workoutCompleted)).length : ℚ) /
    (progressData.length : ℚ)) * 100)

/-- `progressData.map(p => p.weight).filter(w => w)` in `calculateTrends`. -/
def truthyProgressWeights (pd : List ProgressEntry) : List ℚ :=
  (pd.filterMap (fun p => p.weight)).filter (fun w => w != 0)

/-- `AIService.calculateTrends` (aiService.js): first/last weight difference,
classified by its sign; no sorting, no least squares. -/
def calculateTrends (progressData : List ProgressEntry) : TrendsResult :=
  if progressData.length < 2 then { trend := "insufficient_data" }
  else
    let weights := truthyProgressWeights progressData
    if weights.length < 2 then { trend := "insufficient_weight_data" }
    else
      let firstWeight := weights.headD 0
      let lastWeight := weights.getLastD 0
      let change := lastWeight - firstWeight
      let weeklyChange := change / ((weights.length : ℚ) - 1)
      { trend := if change > 0 then "increasing"
          else if change < 0 then "decreasing" else "stable",
        totalChange := some change,
        weeklyChange := some weeklyChange,
        consistency := some (calculateConsistency progressData) }

/-! ### Spec-side ordinary-least-squares slope

The specification formula `slope = (n·Σxy − Σx·Σy) / (n·Σx² − (Σx)²)` with
`x = 0..n-1`, written with `Finset` sums, independently of the fold-based
source code. -/

/-- The OLS slope of `ys` against the index `0..n-1`, as stated in the spec. -/
def olsSlope (ys : List ℚ) : ℚ :=
  let n : ℚ := ys.length
  let sx : ℚ := ∑ i ∈ Finset.range ys.length, (i : ℚ)
  let sy : ℚ := ∑ i ∈ Finset.range ys.length, ys.getD i 0
  let sxy : ℚ := ∑ i ∈ Finset.range ys.length, (i : ℚ) * ys.getD i 0
  let sxx : ℚ := ∑ i ∈ Finset.range ys.length, (i : ℚ) * (i : ℚ)
  (n * sxy - sx * sy) / (n * sxx - sx * sx)

/-! ### `NutritionController.calculateNutritionStats` -/

/-- One nutrition log document as consumed by `calculateNutritionStats`. -/
structure NutritionLog where
  ts : ℕ := 0
  calories : Option ℚ := none
  protein : Option ℚ := none
  carbs : Option ℚ := none
  fat : Option ℚ := none
  water : Option ℚ := none
  deriving DecidableEq

/-- The `goalAchievement` sub-object: initialised to zeros and never
updated by the function. -/
structure GoalAchievement where
  calories : ℚ := 0
  protein : ℚ := 0
  carbs : ℚ := 0
  fat : ℚ := 0
  deriving DecidableEq

/-- The `stats` object returned by `calculateNutritionStats`. -/
structure NutritionStats where
  total : ℕ := 0
  averageCalories : ℤ := 0
  averageProtein : ℤ := 0
  averageCarbs : ℤ := 0
  averageFat : ℤ := 0
  averageWater : ℚ := 0
  consistency : ℕ := 0
  goalAchievement : GoalAchievement := {}
  deriving DecidableEq

/-- `logs.map(l => l.field).filter(x => x)`: keeps present, non-zero values. -/
def truthyVals (vals : List (Option ℚ)) : List ℚ :=
  (vals.filterMap id).filter (fun v => v != 0)

/-- `Math.round(vals.reduce((s, v) => s + v, 0) / vals.length)`. -/
def avgRounded (vals : List ℚ) : ℤ :=
  jsRound (vals.foldl (fun s v => s + v) 0 / (vals.length : ℚ))

/-- `Math.round(avg * 10) / 10` used for the water average. -/
def avgRoundedTenth (vals : List ℚ) : ℚ :=
  ((jsRound ((vals.foldl (fun s v => s + v) 0 / (vals.length : ℚ)) * 10)) : ℚ) / 10

/-- Calendar day of a millisecond timestamp: the code takes
`new Date(log.timestamp).toDateString()` (a midnight) and divides midnight
differences by 86400000; with UTC day boundaries that is floor division of
the timestamp by the milliseconds per day. -/
def calDay (ts : ℕ) : ℕ := ts / 86400000

/-- The `nutritionLogs.sort((a, b) => new Date(a.timestamp) - new
Date(b.timestamp))` step (ascending by timestamp). -/
def sortNutritionByTs (logs : List NutritionLog) : List NutritionLog :=
  List.insertionSort (fun a b => a.ts ≤ b.ts) logs

instance : DecidableRel (fun a b : NutritionLog => a.ts ≤ b.ts) :=
  fun a b => Nat.decLe a.ts b.ts

/-- The `forEach` streak loop of `calculateNutritionStats`, folded over the
calendar days of the sorted logs: state is `(maxConsecutive,
currentConsecutive, lastDate)`; a day difference of exactly 1 extends the
run, anything else (including a repeated day) resets it to 1. -/
def streakGo : ℕ → ℕ → Option ℕ → List ℕ → ℕ
  | mx, _, _, [] => mx
  | mx, cur, last, d :: rest =>
    let cur2 := match last with
      | none => 1
      | some p => if d - p = 1 then cur + 1 else 1
    streakGo (max mx cur2) cur2 (some d) rest

/-- `NutritionController.calculateNutritionStats` (nutritionController.js):
truthy-filtered averages plus the longest-consecutive-day `consistency`
computed by the streak loop over the timestamp-sorted logs. -/
def calculateNutritionStats (nutritionLogs : List NutritionLog) : NutritionStats :=
  if nutritionLogs.length = 0 then {}
  else
    let calories := truthyVals (nutritionLogs.map (fun l => l.calories))
    let protein := truthyVals (nutritionLogs.map (fun l => l.protein))
    let carbs := truthyVals (nutritionLogs.map (fun l => l.carbs))
    let fat := truthyVals (nutritionLogs.map (fun l => l.fat))
    let water := truthyVals (nutritionLogs.map (fun l => l.water))
    { total := nutritionLogs.length,
      averageCalories := if 0 < calories.length then avgRounded calories else 0,
      averageProtein := if 0 < protein.length then avgRounded protein else 0,
      averageCarbs := if 0 < carbs.length then avgRounded carbs else 0,
      averageFat := if 0 < fat.length then avgRounded fat else 0,
      averageWater := if 0 < water.length then avgRoundedTenth water else 0,
      consistency :=
        streakGo 0 0 none ((sortNutritionByTs nutritionLogs).map (fun l => calDay l.ts)),
      goalAchievement := {} }

/-! ### Spec-side longest consecutive-day run -/

/-- Length of the initial run of consecutive successors of `d` in a day
sequence: `chainFrom d (d+1 :: d+2 :: ...)` counts until the first gap. -/
def chainFrom (d : ℕ) : List ℕ → ℕ
  | [] => 0
  | e :: t => if e = d + 1 then chainFrom e t + 1 else 0

/-- The length of the longest run of calendar-consecutive days in a day
sequence: the maximum over all start positions of the consecutive chain
beginning there. -/
def maxRun : List ℕ → ℕ
  | [] => 0
  | e :: t => max (chainFrom e t + 1) (maxRun t)

/-- Intermediate form of the streak loop: the best streak reachable from
state `(cur, d)`, including the current value. -/
def bestFrom : ℕ → ℕ → List ℕ → ℕ
  | cur, _, [] => cur
  | cur, d, e :: t => max cur (bestFrom (if e - d = 1 then cur + 1 else 1) e t)

/-! ### JSON values and JS string rendering -/

/-- Decimal digits of `n`, most significant first, by fuel recursion (the
fuel is structural, so the kernel can evaluate it). -/
def natStrAux : ℕ → ℕ → List Char
  | 0, _ => []
  | fuel + 1, n => if n = 0 then [] else natStrAux fuel (n / 10) ++ [Nat.digitChar (n % 10)]

/-- Characters of the decimal numeral of `n`. -/
def natStrChars (n : ℕ) : List Char := if n = 0 then ['0'] else natStrAux (n + 1) n

/-- Characters of the decimal numeral of `z`, with a leading minus sign when
negative: how JS renders an integer-valued number into a template string. -/
def intStrChars (z : ℤ) : List Char :=
  if z < 0 then '-' :: natStrChars z.natAbs else natStrChars z.toNat

/-- JS rendering of an integer-valued number. -/
def intStr (z : ℤ) : String := String.mk (intStrChars z)

/-- JSON values (the shape of `JSON.parse`/`JSON.stringify` data and of the
object literals in the source). -/
inductive Json where
  | null : Json
  | bool (b : Bool) : Json
  | num (n : ℤ) : Json
  | str (s : String) : Json
  | arr (xs : List Json) : Json
  | obj (fields : List (String × Json)) : Json

/-- A JSON string literal: quote, content, quote (none of the strings in
the source contain characters JSON would escape). -/
def quoteChars (s : String) : List Char := '"' :: s.toList ++ ['"']

/-- `JSON.stringify`, producing the same compact text as V8: no spaces,
fields in insertion order.  The recursion is fuelled so that the kernel can
evaluate it; `Json.stringify` instantiates the fuel with a bound far above
the nesting depth of every JSON value occurring in the source. -/
def stringifyF : ℕ → Json → List Char
  | 0, _ => []
  | fuel + 1, j =>
    match j with
    | .null => "null".toList
    | .bool b => if b then "true".toList else "false".toList
    | .num n => intStrChars n
    | .str s => quoteChars s
    | .arr xs => '[' :: List.intercalate [','] (xs.map (stringifyF fuel)) ++ [']']
    | .obj fs =>
      Char.ofNat 123 ::
        List.intercalate [',']
          (fs.map (fun p => quoteChars p.1 ++ ':' :: stringifyF fuel p.2)) ++
        [Char.ofNat 125]

/-- `JSON.stringify` of a JSON value (nesting depth at most 32, which every
object literal of the source satisfies). -/
def Json.stringify (j : Json) : String := String.mk (stringifyF 32 j)

/-- JS property access `v[k]` on a parsed JSON value that is not `null`:
a field of an object, `undefined` (`none`) otherwise. -/
def Json.getField : Json → String → Option Json
  | .obj fs, k => fs.lookup k
  | _, _ => none

/-- JS truthiness of a JSON value. -/
def jsTruthy : Json → Bool
  | .null => false
  | .bool b => b
  | .num n => n != 0
  | .str s => s != ""
  | .arr _ => true
  | .obj _ => true

/-- JS `a || d` where `a` is a possibly-`undefined` JSON value. -/
def jsOr (v : Option Json) (d : Json) : Json :=
  match v with
  | some x => if jsTruthy x then x else d
  | none => d

/-- Truthiness of a possibly-`undefined` value. -/
def optTruthy (v : Option Json) : Bool :=
  match v with
  | some x => jsTruthy x
  | none => false

/-- Whether a JSON value is an array. -/
def Json.isArr : Json → Bool
  | .arr _ => true
  | _ => false

/-- JS `haystack.includes(needle)` on character lists. -/
def charsInfix (needle : List Char) : List Char → Bool
  | [] => needle.isEmpty
  | c :: t => needle.isPrefixOf (c :: t) || charsInfix needle t

/-- JS `s.includes(sub)`. -/
def strIncludes (s sub : String) : Bool := charsInfix sub.toList s.toList

/-! ### Advisory Gateway: `AIService.callAIAPI` and its fallback -/

/-- One `parts` element of a Gemini response. -/
structure GenPart where
  text : String
  deriving DecidableEq

/-- The `content` of a Gemini response candidate. -/
structure GenContent where
  parts : List GenPart
  deriving DecidableEq

/-- One `candidates` element of a Gemini response. -/
structure GenCandidate where
  content : GenContent
  deriving DecidableEq

/-- The parsed body of a 2xx Gemini response. -/
structure GenBody where
  candidates : List GenCandidate
  deriving DecidableEq

/-- Outcome of the single `fetch` to the generative-model endpoint:
network error, non-2xx status, unparseable body, or a parsed body. -/
inductive ApiOutcome where
  | netErr : ApiOutcome
  | badStatus (code : ℕ) : ApiOutcome
  | badJson : ApiOutcome
  | ok (body : GenBody) : ApiOutcome
  deriving DecidableEq

/-- `data.candidates[0].content.parts[0].text`: `none` when either list is
empty (the JS property chain then throws a TypeError, caught by the
surrounding handler). -/
def extractFirstText (b : GenBody) : Option String :=
  b.candidates.head?.bind fun c => (c.content.parts.head?).map (fun p => p.text)

/-- Every outcome of the call that ends in the `catch` block: network
error, thrown non-2xx status, body that fails to parse, or a parsed body
whose candidate/part chain is empty or malformed. -/
def isApiFailure : ApiOutcome → Bool
  | .ok b => (extractFirstText b).isNone
  | _ => true

/-- The canned workout-plan object of `AIService.getFallbackResponse`. -/
def workoutFallback : Json :=
  .obj [("weekPlan", .arr [
      .obj [("day", .str "Lunes"), ("focus", .str "Tren superior"),
        ("exercises", .arr [
          .obj [("name", .str "Flexiones"), ("sets", .num 3), ("reps", .str "10-12"),
            ("rest", .str "60s"), ("equipment", .str "cuerpo"),
            ("alternative", .str "Flexiones con rodillas")]])]]),
    ("tips", .arr [.str "Mantén la forma correcta", .str "Respira de manera controlada"]),
    ("progression", .str "Aumenta las repeticiones gradualmente")]

/-- The canned nutrition object of `AIService.getFallbackResponse`. -/
def nutritionFallback : Json :=
  .obj [("dailyCalories", .num 2000),
    ("macros", .obj [("protein", .str "150g (30%)"), ("carbs", .str "200g (40%)"),
      ("fat", .str "67g (30%)")]),
    ("mealSuggestions", .arr [
      .obj [("meal", .str "Desayuno"),
        ("foods", .arr [.str "Avena", .str "Plátano", .str "Huevos"]),
        ("calories", .num 400)]]),
    ("tips", .arr [.str "Come proteína en cada comida", .str "Hidrátate bien"]),
    ("hydration", .str "Bebe al menos 2L de agua al día")]

/-- The one-line generic encouragement string of `getFallbackResponse`. -/
def genericFallback : String :=
  "Mantén la consistencia en tu rutina. Cada pequeño paso cuenta hacia tu objetivo."

/-- `AIService.getFallbackResponse`: keyword scan over the prompt text —
`"entrenamiento"` selects the canned workout JSON, otherwise `"nutrición"`
selects the canned nutrition JSON, otherwise the generic one-liner. -/
def getFallbackResponse (prompt : String) : String :=
  if strIncludes prompt "entrenamiento" then Json.stringify workoutFallback
  else if strIncludes prompt "nutrición" then Json.stringify nutritionFallback
  else genericFallback

/-- `AIService.callAIAPI`: on a parsed 2xx body the first candidate text is
returned verbatim; every failure (network error, non-2xx, bad JSON, missing
candidate/part) is caught and converted to `getFallbackResponse prompt`. -/
def callAIAPI (outcome : ApiOutcome) (prompt : String) : String :=
  match outcome with
  | .ok body =>
    match extractFirstText body with
    | some t => t
    | none => getFallbackResponse prompt
  | _ => getFallbackResponse prompt

/-! ### `AIService.extractRecommendations` -/

/-- The sentence delimiters of the `/[.!?]+/` split regex. -/
def isSentencePunct (c : Char) : Bool := c = '.' || c = '!' || c = '?'

/-- `text.split(/[.!?]+/)` on character lists: `skipping` records that the
previous character was a delimiter (consecutive delimiters form one split
point), `acc` is the current segment reversed. -/
def splitPunctGo (skipping : Bool) (acc : List Char) : List Char → List (List Char)
  | [] => [acc.reverse]
  | c :: rest =>
    if skipping && isSentencePunct c then splitPunctGo true [] rest
    else if isSentencePunct c then acc.reverse :: splitPunctGo true [] rest
    else splitPunctGo false (c :: acc) rest

/-- `aiResponse.split(/[.!?]+/)`. -/
def splitPunct (s : String) : List String :=
  (splitPunctGo false [] s.toList).map (fun l => String.mk l)

/-- JS `s.trim()`. -/
def jsTrim (s : String) : String :=
  String.mk (((s.toList.dropWhile Char.isWhitespace).reverse.dropWhile
    Char.isWhitespace).reverse)

/-- The catch branch of `extractRecommendations`:
`aiResponse.split(/[.!?]+/).filter(s => s.trim().length > 10)` followed by
`.slice(0, 3)`. -/
def extractFallbackSentences (aiResponse : String) : List String :=
  ((splitPunct aiResponse).filter (fun s => 10 < (jsTrim s).length)).take 3

/-- `AIService.extractRecommendations`.  `parsed` is the result of
`JSON.parse(aiResponse)` (`none` when parsing throws).  When the parse
yields `null`, the subsequent property access `parsed.recommendations`
throws a TypeError which the same `catch` turns into the sentence fallback.
Otherwise the result is `parsed.recommendations || parsed.tips || []`. -/
def extractRecommendations (parsed : Option Json) (aiResponse : String) : Json :=
  match parsed with
  | none => Json.arr ((extractFallbackSentences aiResponse).map Json.str)
  | some Json.null => Json.arr ((extractFallbackSentences aiResponse).map Json.str)
  | some j => jsOr (j.getField "recommendations") (jsOr (j.getField "tips") (Json.arr []))

/-! ### `DatabaseService.insert` -/

/-- A JS document: an association list of fields (a field that is absent is
simply not in the list; `undefined` is not a storable value). -/
abbrev JsRecord := List (String × Json)

/-- JS property read `r[k]`. -/
def jsGet (r : JsRecord) (k : String) : Option Json := r.lookup k

/-- JS property write `r[k] = v`: replaces the value in place when the key
exists, appends the field otherwise. -/
def jsSet (r : JsRecord) (k : String) (v : Json) : JsRecord :=
  if (r.lookup k).isSome then r.map (fun p => if p.1 = k then (k, v) else p)
  else r ++ [(k, v)]

/-- `if (!r[k]) r[k] = v`: assign only when the current value is falsy
(absent, empty string, zero, `null`, `false`). -/
def jsSetIfFalsy (r : JsRecord) (k : String) (v : Json) : JsRecord :=
  if optTruthy (jsGet r k) then r else jsSet r k v

/-- The data mutation performed by `DatabaseService.insert`
(databaseService.js): `if (!data.id) data.id = this.generateId()`, then the
same falsy checks for `createdAt` and `updatedAt` with two `new Date()`
calls.  The document written and the value returned (`{id: data.id,
...data}`) both consist of exactly these fields (the spread only moves
`id` to the front, which an association-list lookup cannot observe). -/
def insertRecord (data : JsRecord) (genId nowCreated nowUpdated : String) : JsRecord :=
  jsSetIfFalsy
    (jsSetIfFalsy
      (jsSetIfFalsy data "id" (Json.str genId))
      "createdAt" (Json.str nowCreated))
    "updatedAt" (Json.str nowUpdated)

/-! ### Prompt Builder: user profile and field interpolation -/

/-- The user profile object (`userData`) consumed by the prompt builders.
Every field can be absent (`undefined`): the AI controller even passes an
un-awaited Promise here, on which every field reads as `undefined`. -/
structure UserData where
  id : Option String := none
  name : Option String := none
  goal : Option String := none
  experienceLevel : Option String := none
  activityLevel : Option String := none
  equipment : Option (List String) := none
  age : Option ℤ := none
  currentWeight : Option ℤ := none
  height : Option ℤ := none
  initialWeight : Option ℤ := none
  weight : Option ℤ := none
  deriving DecidableEq

/-- Bare `${x}` interpolation of a possibly-absent string field: an absent
field renders the literal "undefined". -/
def jsStrOpt (v : Option String) : String :=
  match v with
  | some s => s
  | none => "undefined"

/-- `${x || 'd'}` for a string field (the empty string is falsy). -/
def jsOrStr (v : Option String) (d : String) : String :=
  match v with
  | some s => if s = "" then d else s
  | none => d

/-- `${x || 'd'}` for a numeric field (`0` is falsy). -/
def jsOrNum (v : Option ℤ) (d : String) : String :=
  match v with
  | some z => if z = 0 then d else intStr z
  | none => d

/-- `${JSON.stringify(x)}` for the equipment array; when the field is
absent, `JSON.stringify(undefined)` is `undefined` and the template
interpolates the literal "undefined". -/
def jsonArrOpt (v : Option (List String)) : String :=
  match v with
  | some l => String.mk ('[' :: List.intercalate [','] (l.map quoteChars) ++ [']'])
  | none => "undefined"

/-- JS `String(x)` of a JSON value, as template interpolation performs it
(arrays join their elements with commas; objects render as
"[object Object]").  Fuelled like `stringifyF`. -/
def jsToStringF : ℕ → Json → List Char
  | 0, _ => []
  | fuel + 1, j =>
    match j with
    | .null => "null".toList
    | .bool b => if b then "true".toList else "false".toList
    | .num n => intStrChars n
    | .str s => s.toList
    | .arr xs => List.intercalate [','] (xs.map (jsToStringF fuel))
    | .obj _ => "[object Object]".toList

/-- JS `String(x)` of a JSON value. -/
def jsToString (j : Json) : String := String.mk (jsToStringF 32 j)

/-- `${context.k || 'd'}`: interpolation of a context field with a
default. -/
def jsCtxOr (context : Json) (k : String) (d : String) : String :=
  match context.getField k with
  | some v => if jsTruthy v then jsToString v else d
  | none => d

/-! ### Prompt Builder: the four intent templates

Each builder is the `String.join` of its parts list; the parts alternate
the template literal segments of the source (transcribed verbatim) with
the interpolated field slots. -/

/-- Parts of `AIService.buildWorkoutPrompt`. -/
def buildWorkoutPromptParts (u : UserData) (context : Json) : List String :=
  ["\n    Eres un entrenador personal experto en fitness. Necesito que generes una recomendación de entrenamiento personalizada.\n\n    DATOS DEL USUARIO:\n    - Objetivo: ",
   jsStrOpt u.goal,
   "\n    - Nivel de experiencia: ",
   jsStrOpt u.experienceLevel,
   "\n    - Equipamiento disponible: ",
   jsonArrOpt u.equipment,
   "\n    - Edad: ",
   jsOrNum u.age "No especificada",
   "\n    - Peso actual: ",
   jsOrNum u.currentWeight "No especificado",
   " kg\n    - Altura: ",
   jsOrNum u.height "No especificada",
   " cm\n\n    CONTEXTO ADICIONAL:\n    ",
   Json.stringify context,
   "\n\n    INSTRUCCIONES:\n    1. Genera un plan de entrenamiento de 1 semana\n    2. Incluye ejercicios específicos con series, repeticiones y descanso\n    3. Adapta los ejercicios al equipamiento disponible\n    4. Considera el nivel de experiencia del usuario\n    5. Proporciona alternativas para ejercicios que requieran equipamiento no disponible\n    6. Incluye consejos de técnica y seguridad\n\n    Responde en formato JSON con la siguiente estructura:\n    \x7b\n      \"weekPlan\": [\n        \x7b\n          \"day\": \"Lunes\",\n          \"focus\": \"Tren superior\",\n          \"exercises\": [\n            \x7b\n              \"name\": \"Nombre del ejercicio\",\n              \"sets\": 3,\n              \"reps\": \"10-12\",\n              \"rest\": \"60s\",\n              \"equipment\": \"mancuernas\",\n              \"alternative\": \"Alternativa sin equipamiento\"\n            \x7d\n          ]\n        \x7d\n      ],\n      \"tips\": [\"Consejo 1\", \"Consejo 2\"],\n      \"progression\": \"Cómo progresar en las próximas semanas\"\n    \x7d\n    "]

/-- `AIService.buildWorkoutPrompt`. -/
def buildWorkoutPrompt (u : UserData) (context : Json) : String :=
  String.join (buildWorkoutPromptParts u context)

/-- Parts of `AIService.buildNutritionPrompt`. -/
def buildNutritionPromptParts (u : UserData) (nutritionData : Json) : List String :=
  ["\n    Eres un nutricionista deportivo experto. Necesito que generes consejos nutricionales personalizados.\n\n    DATOS DEL USUARIO:\n    - Objetivo: ",
   jsStrOpt u.goal,
   "\n    - Peso actual: ",
   jsOrNum u.currentWeight "No especificado",
   " kg\n    - Altura: ",
   jsOrNum u.height "No especificada",
   " cm\n    - Edad: ",
   jsOrNum u.age "No especificada",
   "\n    - Nivel de actividad: ",
   jsOrStr u.activityLevel "Moderado",
   "\n\n    DATOS NUTRICIONALES ACTUALES:\n    ",
   Json.stringify nutritionData,
   "\n\n    INSTRUCCIONES:\n    1. Calcula las necesidades calóricas diarias\n    2. Distribuye los macronutrientes (proteínas, carbohidratos, grasas)\n    3. Sugiere alimentos específicos\n    4. Proporciona consejos para el timing de las comidas\n    5. Considera el objetivo del usuario\n\n    Responde en formato JSON:\n    \x7b\n      \"dailyCalories\": 2000,\n      \"macros\": \x7b\n        \"protein\": \"150g (30%)\",\n        \"carbs\": \"200g (40%)\",\n        \"fat\": \"67g (30%)\"\n      \x7d,\n      \"mealSuggestions\": [\n        \x7b\n          \"meal\": \"Desayuno\",\n          \"foods\": [\"Avena\", \"Plátano\", \"Huevos\"],\n          \"calories\": 400\n        \x7d\n      ],\n      \"tips\": [\"Consejo 1\", \"Consejo 2\"],\n      \"hydration\": \"Recomendaciones de hidratación\"\n    \x7d\n    "]

/-- `AIService.buildNutritionPrompt`. -/
def buildNutritionPrompt (u : UserData) (nutritionData : Json) : String :=
  String.join (buildNutritionPromptParts u nutritionData)

/-- Parts of `AIService.buildProgressAnalysisPrompt`. -/
def buildProgressAnalysisPromptParts (u : UserData) (progressData : Json) : List String :=
  ["\n    Eres un analista de datos de fitness. Analiza el progreso del usuario y proporciona insights.\n\n    DATOS DEL USUARIO:\n    - Objetivo: ",
   jsStrOpt u.goal,
   "\n    - Peso inicial: ",
   jsOrNum u.initialWeight "No especificado",
   " kg\n    - Peso actual: ",
   jsOrNum u.currentWeight "No especificado",
   " kg\n\n    DATOS DE PROGRESO (últimas 4 semanas):\n    ",
   Json.stringify progressData,
   "\n\n    INSTRUCCIONES:\n    1. Analiza las tendencias de peso, medidas y rendimiento\n    2. Identifica patrones positivos y áreas de mejora\n    3. Detecta posibles estancamientos\n    4. Sugiere ajustes al plan de entrenamiento\n    5. Proporciona motivación basada en el progreso\n\n    Responde en formato JSON:\n    \x7b\n      \"trends\": \x7b\n        \"weight\": \"Descripción de la tendencia del peso\",\n        \"strength\": \"Descripción de la tendencia de fuerza\",\n        \"consistency\": \"Descripción de la consistencia\"\n      \x7d,\n      \"insights\": [\"Insight 1\", \"Insight 2\"],\n      \"recommendations\": [\"Recomendación 1\", \"Recomendación 2\"],\n      \"motivation\": \"Mensaje motivacional personalizado\"\n    \x7d\n    "]

/-- `AIService.buildProgressAnalysisPrompt`. -/
def buildProgressAnalysisPrompt (u : UserData) (progressData : Json) : String :=
  String.join (buildProgressAnalysisPromptParts u progressData)

/-- Parts of `AIService.buildMotivationPrompt`. -/
def buildMotivationPromptParts (u : UserData) (context : Json) : List String :=
  ["\n    Eres un coach motivacional experto en fitness. Genera un mensaje motivacional personalizado.\n\n    DATOS DEL USUARIO:\n    - Nombre: ",
   jsOrStr u.name "Usuario",
   "\n    - Objetivo: ",
   jsStrOpt u.goal,
   "\n    - Días consecutivos entrenando: ",
   jsCtxOr context "consecutiveDays" "0",
   "\n    - Último entrenamiento: ",
   jsCtxOr context "lastWorkout" "No especificado",
   "\n\n    CONTEXTO:\n    ",
   Json.stringify context,
   "\n\n    INSTRUCCIONES:\n    1. Crea un mensaje motivacional personalizado\n    2. Celebra los logros recientes\n    3. Proporciona perspectiva sobre el objetivo\n    4. Incluye un recordatorio del \"por qué\"\n    5. Mantén un tono positivo y alentador\n\n    Responde con un mensaje directo y motivacional (máximo 200 palabras).\n    "]

/-- `AIService.buildMotivationPrompt`. -/
def buildMotivationPrompt (u : UserData) (context : Json) : String :=
  String.join (buildMotivationPromptParts u context)

/-- The profile-field interpolations of the workout template. -/
def workoutProfileSlots (u : UserData) : List String :=
  [jsStrOpt u.goal, jsStrOpt u.experienceLevel, jsonArrOpt u.equipment,
   jsOrNum u.age "No especificada", jsOrNum u.currentWeight "No especificado",
   jsOrNum u.height "No especificada"]

/-- The profile-field interpolations of the nutrition template. -/
def nutritionProfileSlots (u : UserData) : List String :=
  [jsStrOpt u.goal, jsOrNum u.currentWeight "No especificado",
   jsOrNum u.height "No especificada", jsOrNum u.age "No especificada",
   jsOrStr u.activityLevel "Moderado"]

/-- The profile-field interpolations of the progress-analysis template. -/
def progressProfileSlots (u : UserData) : List String :=
  [jsStrOpt u.goal, jsOrNum u.initialWeight "No especificado",
   jsOrNum u.currentWeight "No especificado"]

/-- The profile-field interpolations of the motivation template. -/
def motivationProfileSlots (u : UserData) : List String :=
  [jsOrStr u.name "Usuario", jsStrOpt u.goal]

/-- The `goal` enumeration of the UserProfile data model. -/
def goalEnum : List String :=
  ["weight_loss", "muscle_gain", "strength", "tone", "recomposition",
   "endurance", "general_fitness"]

/-- The `experienceLevel` enumeration of the UserProfile data model. -/
def expEnum : List String := ["beginner", "intermediate", "advanced"]

/-! ### Advisory Orchestrator: `AIController.getRecommendations` and the
`AIService.generate*` flows, with their externally observable events -/

/-- Externally observable effects of one advisory call. -/
inductive Event where
  | findByIdCall
  | dbFindCall
  | aiApiCall
  | dbInsertDone
  | dbInsertFailed
  | logInfo
  | logError
  deriving DecidableEq

/-- The application error taxonomy of `ErrorHandler` (errorHandler.js). -/
inductive AppError where
  | authentication (msg : String)
  | notFound (msg : String)
  | validation (msg : String)
  | db (msg : String)
  deriving DecidableEq

/-- Environment of one advisory call: the outcome the external model
endpoint would produce, whether the suggestion insert succeeds, and the
generated id / current time used by the database service. -/
structure AIEnv where
  api : ApiOutcome
  insertOk : Bool
  genId : String
  now : String
  deriving DecidableEq

/-- The single `fetch` of `callAIAPI`, with its observable event. -/
def callAIAPIE (env : AIEnv) (prompt : String) : String × List Event :=
  (callAIAPI env.api prompt, [Event.aiApiCall])

/-- `DatabaseService.insert('aiSuggestions', record)`: applies the
`insertRecord` mutation and writes, or throws, according to the
environment. -/
def dbInsertSuggestion (env : AIEnv) (record : JsRecord) :
    Except AppError JsRecord × List Event :=
  if env.insertOk then
    (Except.ok (insertRecord record env.genId env.now env.now),
     [Event.dbInsertDone, Event.logInfo])
  else (Except.error (AppError.db "insert failed"), [Event.dbInsertFailed])

/-- `AIService.saveAISuggestion`: builds the suggestion document and
swallows any insert error — the `catch` only logs, so the function always
succeeds. -/
def saveAISuggestionE (env : AIEnv) (userId : Option String)
    (prompt response : String) (context : Json) : Except AppError Unit × List Event :=
  let record : JsRecord :=
    (match userId with
      | some s => [("userId", Json.str s)]
      | none => []) ++
    [("prompt", Json.str prompt), ("response", Json.str response),
     ("context", context), ("timestamp", Json.str env.now)]
  match dbInsertSuggestion env record with
  | (Except.ok _, ev) => (Except.ok (), ev ++ [Event.logInfo])
  | (Except.error _, ev) => (Except.ok (), ev ++ [Event.logError])

/-- The value returned by `generateWorkoutRecommendation`:
`{recommendation, context: {userGoal, experienceLevel, equipment}}`. -/
structure WorkoutRec where
  recommendation : String
  userGoal : Option String
  experienceLevel : Option String
  equipment : Option (List String)
  deriving DecidableEq

/-- `AIService.generateWorkoutRecommendation`: build prompt → call the
gateway → persist (failure swallowed) → return the computed
recommendation. -/
def generateWorkoutRecommendationE (env : AIEnv) (userData : UserData)
    (context : Json) : Except AppError WorkoutRec × List Event :=
  let prompt := buildWorkoutPrompt userData context
  let (response, ev1) := callAIAPIE env prompt
  match saveAISuggestionE env userData.id prompt response context with
  | (Except.ok _, ev2) =>
    (Except.ok
      { recommendation := response, userGoal := userData.goal,
        experienceLevel := userData.experienceLevel,
        equipment := userData.equipment },
     ev1 ++ ev2)
  | (Except.error e, ev2) => (Except.error e, ev1 ++ ev2)

/-- The value returned by `generateNutritionAdvice`. -/
structure NutritionAdvice where
  advice : String
  currentWeight : Option ℤ
  goal : Option String
  activityLevel : Option String
  deriving DecidableEq

/-- `AIService.generateNutritionAdvice`. -/
def generateNutritionAdviceE (env : AIEnv) (userData : UserData)
    (nutritionData : Json) : Except AppError NutritionAdvice × List Event :=
  let prompt := buildNutritionPrompt userData nutritionData
  let (response, ev1) := callAIAPIE env prompt
  match saveAISuggestionE env userData.id prompt response
      (Json.obj [("type", Json.str "nutrition")]) with
  | (Except.ok _, ev2) =>
    (Except.ok
      { advice := response, currentWeight := userData.currentWeight,
        goal := userData.goal, activityLevel := userData.activityLevel },
     ev1 ++ ev2)
  | (Except.error e, ev2) => (Except.error e, ev1 ++ ev2)

/-- The value returned by `generateMotivation`. -/
structure MotivationMsg where
  message : String
  mtype : Json
  msgTimestamp : String

/-- `AIService.generateMotivation`. -/
def generateMotivationE (env : AIEnv) (userData : UserData)
    (context : Json) : Except AppError MotivationMsg × List Event :=
  let prompt := buildMotivationPrompt userData context
  let (response, ev1) := callAIAPIE env prompt
  match saveAISuggestionE env userData.id prompt response
      (Json.obj [("type", Json.str "motivation")]) with
  | (Except.ok _, ev2) =>
    (Except.ok
      { message := response,
        mtype := jsOr (context.getField "type") (Json.str "general"),
        msgTimestamp := env.now },
     ev1 ++ ev2)
  | (Except.error e, ev2) => (Except.error e, ev1 ++ ev2)

/-- Environment of one controller call: the advisory environment plus the
`Users` collection. -/
structure ControllerEnv where
  api : ApiOutcome
  insertOk : Bool
  genId : String
  now : String
  users : List (String × UserData)
  deriving DecidableEq

/-- The advisory part of a controller environment. -/
def ControllerEnv.toAIEnv (e : ControllerEnv) : AIEnv :=
  ⟨e.api, e.insertOk, e.genId, e.now⟩

/-- A pending JS Promise and the value it would resolve to. -/
structure JsPromise (α : Type) where
  resolvesTo : α
  deriving DecidableEq

/-- A Promise is a JS object, and every JS object is truthy — this is why
the `if (!userData)` check after the un-awaited
`DatabaseService.findById('Users', user.id)` can never fire. -/
def promiseTruthy {α : Type} (p : JsPromise α) : Bool := true

/-- Reading UserProfile fields off a pending Promise object yields
`undefined` for every field: the all-absent profile. -/
def promiseAsUserData {α : Type} (p : JsPromise α) : UserData := {}

/-- `DatabaseService.findById('Users', id)` as invoked *without* `await`
by the AI controller: the un-awaited Promise, plus its event. -/
def findByIdUsersP (env : ControllerEnv) (id : String) :
    JsPromise (Option UserData) × List Event :=
  (⟨env.users.lookup id⟩, [Event.findByIdCall])

/-- `AIController.getUserNutritionData`: its inner `DatabaseService.find`
is itself not awaited, so `nutritionLogs.length` throws and the `catch`
returns the default averages object. -/
def getUserNutritionDataE (env : ControllerEnv) (userId : String) :
    Json × List Event :=
  (Json.obj [("averageCalories", Json.num 2000), ("averageProtein", Json.num 150),
    ("averageCarbs", Json.num 200), ("averageFat", Json.num 67)],
   [Event.dbFindCall, Event.logError])

/-- The payload of a `getRecommendations` response, by advisory type. -/
inductive RecPayload where
  | workout (w : WorkoutRec)
  | nutrition (n : NutritionAdvice)
  | motivation (m : MotivationMsg)

/-- The response shape of `AIController.getRecommendations`. -/
structure RecResponse where
  rtype : String
  payload : RecPayload
  timestamp : String

/-- `AIController.getRecommendations` (userController.js): authentication
check, the *un-awaited* profile lookup with its dead `NotFound` check, the
intent dispatch, and the response shaping. -/
def getRecommendationsE (env : ControllerEnv) (user : Option String)
    (rtype : String) (context : Json) : Except AppError RecResponse × List Event :=
  match user with
  | none => (Except.error (AppError.authentication "Usuario no autenticado"), [])
  | some uid =>
    let (userDataP, ev0) := findByIdUsersP env uid
    if promiseTruthy userDataP = false then
      (Except.error (AppError.notFound "Usuario no encontrado"), ev0)
    else
      match rtype with
      | "workout" =>
        match generateWorkoutRecommendationE env.toAIEnv
            (promiseAsUserData userDataP) context with
        | (Except.ok w, ev) =>
          (Except.ok ⟨rtype, RecPayload.workout w, env.now⟩, ev0 ++ ev)
        | (Except.error e, ev) => (Except.error e, ev0 ++ ev)
      | "nutrition" =>
        let (nd, evn) := getUserNutritionDataE env uid
        match generateNutritionAdviceE env.toAIEnv
            (promiseAsUserData userDataP) nd with
        | (Except.ok n, ev) =>
          (Except.ok ⟨rtype, RecPayload.nutrition n, env.now⟩, ev0 ++ evn ++ ev)
        | (Except.error e, ev) => (Except.error e, ev0 ++ evn ++ ev)
      | "motivation" =>
        match generateMotivationE env.toAIEnv
            (promiseAsUserData userDataP) context with
        | (Except.ok m, ev) =>
          (Except.ok ⟨rtype, RecPayload.motivation m, env.now⟩, ev0 ++ ev)
        | (Except.error e, ev) => (Except.error e, ev0 ++ ev)
      | _ => (Except.error (AppError.validation "Tipo de recomendación no válido"), ev0)

/-- Whether a controller result is the `NotFound` failure. -/
def isNotFoundErr {α : Type} : Except AppError α → Bool
  | Except.error (AppError.notFound _) => true
  | _ => false

/-! ### Helper lemmas: folds over `List.range` as `Finset` sums -/

theorem foldl_range_eq_sum (f : ℕ → ℚ) (n : ℕ) :
    (List.range n).foldl (fun s i => s + f i) 0 = ∑ i ∈ Finset.range n, f i := by
  induction n with
  | zero => simp
  | succ n ih =>
    rw [List.range_succ, List.foldl_append, Finset.sum_range_succ, ih]
    simp

theorem foldl_add_shift (l : List ℚ) : ∀ a : ℚ,
    l.foldl (fun s v => s + v) a = a + l.foldl (fun s v => s + v) 0 := by
  induction l with
  | nil => intro a; simp
  | cons b t ih =>
    intro a
    simp only [List.foldl_cons]
    rw [ih (a + b), ih (0 + b)]
    ring

theorem foldl_add_eq_sum_getD (ys : List ℚ) :
    ys.foldl (fun s v => s + v) 0 = ∑ i ∈ Finset.range ys.length, ys.getD i 0 := by
  induction ys with
  | nil => simp
  | cons a t ih =>
    rw [List.foldl_cons, foldl_add_shift, ih, List.length_cons, Finset.sum_range_succ']
    simp only [List.getD_cons_succ, List.getD_cons_zero, zero_add]
    ring

theorem le_bestFrom : ∀ (ts : List ℕ) (cur d : ℕ), cur ≤ bestFrom cur d ts := by
  intro ts
  induction ts with
  | nil => intro cur d; exact le_refl _
  | cons e t _ => intro cur d; exact Nat.le_max_left _ _

theorem streakGo_eq_bestFrom : ∀ (ts : List ℕ) (mx cur d : ℕ), cur ≤ mx →
    streakGo mx cur (some d) ts = max mx (bestFrom cur d ts) := by
  intro ts
  induction ts with
  | nil =>
    intro mx cur d h
    simp only [streakGo, bestFrom]
    omega
  | cons e t ih =>
    intro mx cur d h
    simp only [streakGo, bestFrom]
    rw [ih _ _ _ (Nat.le_max_right mx _)]
    have hbf := le_bestFrom t (if e - d = 1 then cur + 1 else 1) e
    revert hbf h
    generalize bestFrom (if e - d = 1 then cur + 1 else 1) e t = B
    generalize (if e - d = 1 then cur + 1 else 1) = c2
    intro h hbf
    simp only [Nat.max_def]
    split_ifs <;> omega

theorem bestFrom_eq_maxRun : ∀ (ts : List ℕ) (d cur : ℕ),
    bestFrom cur d ts = max (cur + chainFrom d ts) (maxRun ts) := by
  intro ts
  induction ts with
  | nil =>
    intro d cur
    simp [bestFrom, chainFrom, maxRun]
  | cons e t ih =>
    intro d cur
    by_cases h : e = d + 1
    · have hd : e - d = 1 := by omega
      simp only [bestFrom, chainFrom, maxRun, hd, if_pos, h, if_true]
      rw [ih]
      simp only [Nat.max_def]
      split_ifs <;> omega
    · have hd : ¬ e - d = 1 := by omega
      simp only [bestFrom, chainFrom, maxRun, if_neg hd, if_neg h]
      rw [ih]
      simp only [Nat.max_def]
      split_ifs <;> omega

theorem streakGo_eq_maxRun (ds : List ℕ) : streakGo 0 0 none ds = maxRun ds := by
  cases ds with
  | nil => rfl
  | cons e t =>
    have h1 : streakGo 0 0 none (e :: t) = streakGo 1 1 (some e) t := by
      simp [streakGo]
    rw [h1, streakGo_eq_bestFrom t 1 1 e (le_refl 1), bestFrom_eq_maxRun]
    simp only [maxRun, Nat.max_def]
    split_ifs <;> omega

theorem lookup_map_replace (r : JsRecord) (k : String) (v : Json) :
    (r.map (fun p => if p.1 = k then (k, v) else p)).lookup k =
      if (r.lookup k).isSome then some v else none := by
  induction r with
  | nil => simp
  | cons p t ih =>
    obtain ⟨b, w⟩ := p
    by_cases hb : b = k
    · subst hb
      simp [List.lookup_cons]
    · have hkb : (k == b) = false := beq_false_of_ne (Ne.symm hb)
      simp only [List.map_cons, if_neg hb, List.lookup_cons, hkb]
      simpa using ih

theorem lookup_map_replace_ne (r : JsRecord) (k k' : String) (v : Json) (h : k' ≠ k) :
    (r.map (fun p => if p.1 = k then (k, v) else p)).lookup k' = r.lookup k' := by
  induction r with
  | nil => simp
  | cons p t ih =>
    obtain ⟨b, w⟩ := p
    by_cases hb : b = k
    · subst hb
      simp only [List.map_cons, List.lookup_cons]
      simp [List.lookup_cons, beq_false_of_ne h, ih]
    · cases hkb : (k' == b) with
      | true => simp only [List.map_cons, if_neg hb, List.lookup_cons, hkb]
      | false =>
        simp only [List.map_cons, if_neg hb, List.lookup_cons, hkb]
        exact ih

theorem lookup_append_single_of_none (r : JsRecord) (k k' : String) (v : Json)
    (h : r.lookup k' = none) :
    (r ++ [(k, v)]).lookup k' = if k' == k then some v else none := by
  induction r with
  | nil =>
    cases hkb : (k' == k) with
    | true => simp [List.lookup_cons, List.lookup, hkb]
    | false => simp [List.lookup_cons, List.lookup, hkb]
  | cons p t ih =>
    obtain ⟨b, w⟩ := p
    rw [List.lookup_cons] at h
    cases hkb : (k' == b) with
    | true => rw [hkb] at h; simp at h
    | false =>
      rw [hkb] at h
      rw [List.cons_append, List.lookup_cons, hkb]
      exact ih h

theorem lookup_append_single_of_some (r : JsRecord) (k k' : String) (v w : Json)
    (h : r.lookup k' = some w) :
    (r ++ [(k, v)]).lookup k' = some w := by
  induction r with
  | nil => simp [List.lookup] at h
  | cons p t ih =>
    obtain ⟨b, c⟩ := p
    rw [List.lookup_cons] at h
    cases hkb : (k' == b) with
    | true =>
      rw [hkb] at h
      rw [List.cons_append, List.lookup_cons, hkb]
      exact h
    | false =>
      rw [hkb] at h
      rw [List.cons_append, List.lookup_cons, hkb]
      exact ih h

theorem jsGet_jsSet_self (r : JsRecord) (k : String) (v : Json) :
    jsGet (jsSet r k v) k = some v := by
  unfold jsGet jsSet
  by_cases hp : (r.lookup k).isSome
  · rw [if_pos hp, lookup_map_replace, if_pos hp]
  · rw [if_neg hp]
    have h : r.lookup k = none := Option.not_isSome_iff_eq_none.mp hp
    rw [lookup_append_single_of_none r k k v h]
    simp

theorem jsGet_jsSet_ne (r : JsRecord) (k k' : String) (v : Json) (h : k' ≠ k) :
    jsGet (jsSet r k v) k' = jsGet r k' := by
  unfold jsGet jsSet
  by_cases hp : (r.lookup k).isSome
  · rw [if_pos hp, lookup_map_replace_ne r k k' v h]
  · rw [if_neg hp]
    cases hk' : r.lookup k' with
    | some w => exact lookup_append_single_of_some r k k' v w hk'
    | none =>
      rw [lookup_append_single_of_none r k k' v hk', if_neg]
      simp [h]

theorem jsGet_jsSetIfFalsy_self (r : JsRecord) (k : String) (v : Json) :
    jsGet (jsSetIfFalsy r k v) k =
      if optTruthy (jsGet r k) then jsGet r k else some v := by
  unfold jsSetIfFalsy
  by_cases h : optTruthy (jsGet r k)
  · rw [if_pos h, if_pos h]
  · rw [if_neg h, if_neg h, jsGet_jsSet_self]

theorem jsGet_jsSetIfFalsy_ne (r : JsRecord) (k k' : String) (v : Json) (h : k' ≠ k) :
    jsGet (jsSetIfFalsy r k v) k' = jsGet r k' := by
  unfold jsSetIfFalsy
  by_cases hp : optTruthy (jsGet r k)
  · rw [if_pos hp]
  · rw [if_neg hp, jsGet_jsSet_ne r k k' v h]

theorem digitChar_isDigit : ∀ d : ℕ, d < 10 → (Nat.digitChar d).isDigit = true := by
  decide

theorem natStrAux_digits : ∀ (fuel n : ℕ), ∀ c ∈ natStrAux fuel n, c.isDigit = true := by
  intro fuel
  induction fuel with
  | zero => intro n c hc; simp [natStrAux] at hc
  | succ f ih =>
    intro n c hc
    unfold natStrAux at hc
    by_cases hn : n = 0
    · rw [if_pos hn] at hc; simp at hc
    · rw [if_neg hn] at hc
      rcases List.mem_append.mp hc with h | h
      · exact ih _ _ h
      · have hcd : c = Nat.digitChar (n % 10) := by simpa using h
        rw [hcd]
        exact digitChar_isDigit _ (Nat.mod_lt _ (by norm_num))

theorem natStrChars_digits (n : ℕ) : ∀ c ∈ natStrChars n, c.isDigit = true := by
  intro c hc
  unfold natStrChars at hc
  by_cases hn : n = 0
  · rw [if_pos hn] at hc
    simp at hc
    rw [hc]
    decide
  · rw [if_neg hn] at hc
    exact natStrAux_digits _ _ _ hc

theorem intStr_ne_of_head (z : ℤ) (t : String) (c0 : Char) (rest : List Char)
    (htd : t.data = c0 :: rest) (hc0 : c0.isDigit = false) (hc0m : c0 ≠ '-') :
    intStr z ≠ t := by
  intro h
  have hd : intStrChars z = t.data := congrArg String.data h
  rw [htd] at hd
  unfold intStrChars at hd
  by_cases hz : z < 0
  · rw [if_pos hz] at hd
    injection hd with h1 _
    exact hc0m h1.symm
  · rw [if_neg hz] at hd
    have hmem : c0 ∈ natStrChars z.toNat := by
      rw [hd]
      exact List.mem_cons_self _ _
    have := natStrChars_digits _ _ hmem
    rw [hc0] at this
    cases this

theorem intStr_ne_undefined (z : ℤ) : intStr z ≠ "undefined" :=
  intStr_ne_of_head z "undefined" 'u' ['n', 'd', 'e', 'f', 'i', 'n', 'e', 'd']
    rfl (by decide) (by decide)

theorem intStr_ne_null (z : ℤ) : intStr z ≠ "null" :=
  intStr_ne_of_head z "null" 'n' ['u', 'l', 'l'] rfl (by decide) (by decide)

theorem mk_bracket_ne (l : List Char) (t : String) (c0 : Char) (rest : List Char)
    (htd : t.data = c0 :: rest) (hne : c0 ≠ '[') : String.mk ('[' :: l) ≠ t := by
  intro h
  have hd := congrArg String.data h
  rw [htd] at hd
  injection hd with h1 _
  exact hne h1.symm

theorem jsOrNum_not_token (v : Option ℤ) (d : String)
    (hd1 : d ≠ "undefined") (hd2 : d ≠ "null") :
    jsOrNum v d ≠ "undefined" ∧ jsOrNum v d ≠ "null" := by
  cases v with
  | none => simpa [jsOrNum] using ⟨hd1, hd2⟩
  | some z =>
    simp only [jsOrNum]
    by_cases hz : z = 0
    · rw [if_pos hz]
      exact ⟨hd1, hd2⟩
    · rw [if_neg hz]
      exact ⟨intStr_ne_undefined z, intStr_ne_null z⟩

theorem jsOrStr_not_token (v : Option String) (d : String)
    (hd1 : d ≠ "undefined") (hd2 : d ≠ "null")
    (hv : ∀ s, v = some s → s ≠ "undefined" ∧ s ≠ "null") :
    jsOrStr v d ≠ "undefined" ∧ jsOrStr v d ≠ "null" := by
  cases v with
  | none => simpa [jsOrStr] using ⟨hd1, hd2⟩
  | some s =>
    simp only [jsOrStr]
    by_cases hs : s = ""
    · rw [if_pos hs]
      exact ⟨hd1, hd2⟩
    · rw [if_neg hs]
      exact hv s rfl

theorem calculateWeightTrend_eq_ols (logs : List WeightLog)
    (h : 2 ≤ (truthyWeights logs).length) :
    calculateWeightTrend logs =
      ⟨if 1/10 < olsSlope (truthyWeights logs) then "increasing"
        else if olsSlope (truthyWeights logs) < -(1/10) then "decreasing" else "stable",
       olsSlope (truthyWeights logs)⟩ := by
  have hlogs : ¬ logs.length < 2 := by
    have h1 := List.length_filter_le (fun w => w != 0) (logs.filterMap (fun l => l.weight))
    have h2 := List.length_filterMap_le (fun l : WeightLog => l.weight) logs
    unfold truthyWeights at h
    omega
  have hw : ¬ (truthyWeights logs).length < 2 := by omega
  unfold calculateWeightTrend olsSlope
  rw [if_neg hlogs, if_neg hw]
  simp only [foldl_range_eq_sum, foldl_add_eq_sum_getD]

/-! ### Theorems for claims C3, C4, C5 -/

/-- C3 (amended): `ProgressController.calculateWeightTrend`, for every series
with at least 2 truthy weights after filtering, computes exactly the
ordinary-least-squares slope `(n·Σxy − Σx·Σy) / (n·Σx² − (Σx)²)` of weight
against index `0..n-1`, and classifies it as "increasing" iff slope > 0.1,
"decreasing" iff slope < -0.1, and "stable" otherwise.
(`AIService.calculateTrends`, by contrast, classifies by the sign of
last − first weight; see the counterexample.) -/
theorem weightTrend_is_ols (logs : List WeightLog)
    (h : 2 ≤ (truthyWeights logs).length) :
    (calculateWeightTrend logs).slope = olsSlope (truthyWeights logs) ∧
    (calculateWeightTrend logs).trend =
      (if 1/10 < olsSlope (truthyWeights logs) then "increasing"
       else if olsSlope (truthyWeights logs) < -(1/10) then "decreasing"
       else "stable") := by
  rw [calculateWeightTrend_eq_ols logs h]
  exact ⟨rfl, rfl⟩

/-- Witness for `weightTrend_is_ols` at the concrete series `[70, 71]`. -/
theorem weightTrend_is_ols_witness :
    2 ≤ (truthyWeights [⟨0, some 70⟩, ⟨1, some 71⟩]).length ∧
    (calculateWeightTrend [⟨0, some 70⟩, ⟨1, some 71⟩]).slope =
      olsSlope (truthyWeights [⟨0, some 70⟩, ⟨1, some 71⟩]) := by
  have h : 2 ≤ (truthyWeights [⟨0, some 70⟩, ⟨1, some 71⟩]).length := by
    simp only [truthyWeights, List.filterMap_cons, List.filterMap_nil,
      List.filter_cons, List.filter_nil, bne_iff_ne, ne_eq]
    norm_num
  exact ⟨h, (weightTrend_is_ols _ h).1⟩

/-- C3 (counterexample): on the 2-point series `[70, 70.05]` (two truthy
weights), `AIService.calculateTrends` reports "increasing" although the OLS
slope is `0.05 ≤ 0.1`, so the claim that every trend computation in the
advisory subsystem — including `AIService.calculateTrends` — classifies
"increasing" iff OLS slope > 0.1 is false. -/
theorem calculateTrends_not_ols_classified :
    2 ≤ (truthyProgressWeights [{ weight := some 70 }, { weight := some (70 + 1/20) }]).length ∧
    (calculateTrends [{ weight := some 70 }, { weight := some (70 + 1/20) }]).trend =
      "increasing" ∧
    ¬ (1/10 : ℚ) <
      olsSlope (truthyProgressWeights
        [{ weight := some 70 }, { weight := some (70 + 1/20) }]) := by
  have hw : truthyProgressWeights
      [{ weight := some 70 }, { weight := some (70 + 1/20) }] = [70, 70 + 1/20] := by
    simp only [truthyProgressWeights, List.filterMap_cons, List.filterMap_nil,
      List.filter_cons, List.filter_nil, bne_iff_ne, ne_eq]
    norm_num
  refine ⟨by rw [hw]; norm_num, ?_, ?_⟩
  · unfold calculateTrends
    rw [if_neg (by norm_num)]
    rw [hw]
    norm_num
  · rw [hw]
    unfold olsSlope
    norm_num [Finset.sum_range_succ]

/-- C4 (amended): with fewer than 2 truthy weights,
`ProgressController.calculateWeightTrend` returns `{trend:
"insufficient_data", slope: 0}` (no `sampleSize` field exists);
`AIService.calculateTrends` returns only `{trend: "insufficient_data"}` when
the series itself has fewer than 2 entries and `{trend:
"insufficient_weight_data"}` when it has ≥ 2 entries but fewer than 2 truthy
weights; no slope is computed in any of these branches. -/
theorem insufficient_data_shapes :
    (∀ logs : List WeightLog, (truthyWeights logs).length < 2 →
      calculateWeightTrend logs = ⟨"insufficient_data", 0⟩) ∧
    (∀ pd : List ProgressEntry, pd.length < 2 →
      calculateTrends pd = { trend := "insufficient_data" }) ∧
    (∀ pd : List ProgressEntry, 2 ≤ pd.length → (truthyProgressWeights pd).length < 2 →
      calculateTrends pd = { trend := "insufficient_weight_data" }) := by
  refine ⟨?_, ?_, ?_⟩
  · intro logs h
    unfold calculateWeightTrend
    by_cases hl : logs.length < 2
    · rw [if_pos hl]
    · rw [if_neg hl, if_pos h]
  · intro pd h
    unfold calculateTrends
    rw [if_pos h]
  · intro pd h2 hw
    unfold calculateTrends
    rw [if_neg (by omega), if_pos hw]

/-- Witness for `insufficient_data_shapes` at concrete inputs: a singleton
weight series, a singleton progress series, and a 2-entry progress series
with only one truthy weight. -/
theorem insufficient_data_shapes_witness :
    calculateWeightTrend [⟨0, some 70⟩] = ⟨"insufficient_data", 0⟩ ∧
    calculateTrends [{ weight := some 70 }] = { trend := "insufficient_data" } ∧
    calculateTrends [{ weight := some 70 }, { weight := none }] =
      { trend := "insufficient_weight_data" } := by
  refine ⟨insufficient_data_shapes.1 _ ?_, insufficient_data_shapes.2.1 _ ?_,
    insufficient_data_shapes.2.2 _ ?_ ?_⟩
  · simp only [truthyWeights, List.filterMap_cons, List.filterMap_nil,
      List.filter_cons, List.filter_nil, bne_iff_ne, ne_eq]
    norm_num
  · norm_num
  · norm_num
  · simp only [truthyProgressWeights, List.filterMap_cons, List.filterMap_nil,
      List.filter_cons, List.filter_nil, bne_iff_ne, ne_eq]
    norm_num

/-- C4 (counterexample): a 2-entry series with exactly one truthy weight
makes `AIService.calculateTrends` return the label
`"insufficient_weight_data"`, not the claimed `"insufficient_data"` (and no
result of this function carries a `sampleSize`). -/
theorem insufficient_weight_data_label :
    (calculateTrends [{ weight := some 70 }, { weight := none }]).trend =
      "insufficient_weight_data" ∧
    ("insufficient_weight_data" : String) ≠ "insufficient_data" := by
  have hw : (truthyProgressWeights [{ weight := some 70 }, { weight := none }]).length < 2 := by
    simp only [truthyProgressWeights, List.filterMap_cons, List.filterMap_nil,
      List.filter_cons, List.filter_nil, bne_iff_ne, ne_eq]
    norm_num
  constructor
  · unfold calculateTrends
    rw [if_neg (by norm_num), if_pos hw]
  · decide

/-- C5 (amended): the trend calculation is not invariant to input ordering
and performs no internal sort by timestamp.
`ProgressController.calculateWeightTrend` reads only the sequence of
`weight` values in the caller-given order — two series with the same
weight sequence but arbitrary timestamps give identical results, so no
timestamp sort can be present — and `AIService.calculateTrends` likewise
changes its result under a permutation of its input (the counterexample
shows the same for `calculateWeightTrend`). -/
theorem trend_reads_only_weight_sequence :
    (∀ l₁ l₂ : List WeightLog,
      l₁.map (fun l => l.weight) = l₂.map (fun l => l.weight) →
      calculateWeightTrend l₁ = calculateWeightTrend l₂) ∧
    (∃ p₁ p₂ : List ProgressEntry,
      p₁.Perm p₂ ∧ calculateTrends p₁ ≠ calculateTrends p₂) := by
  constructor
  · intro l₁ l₂ h
    have hlen : l₁.length = l₂.length := by
      rw [← List.length_map l₁ (fun l => l.weight), h, List.length_map]
    have hvia : ∀ l : List WeightLog,
        l.filterMap (fun x => x.weight) = (l.map (fun x => x.weight)).filterMap id := by
      intro l
      rw [List.filterMap_map]
      rfl
    have hfm : l₁.filterMap (fun x => x.weight) = l₂.filterMap (fun x => x.weight) := by
      rw [hvia l₁, hvia l₂, h]
    have hw : truthyWeights l₁ = truthyWeights l₂ := by
      unfold truthyWeights
      rw [hfm]
    unfold calculateWeightTrend
    rw [hlen, hw]
  · refine ⟨[⟨0, some 70, false⟩, ⟨1, some 75, false⟩, ⟨2, some 71, false⟩],
      [⟨1, some 75, false⟩, ⟨0, some 70, false⟩, ⟨2, some 71, false⟩],
      List.Perm.swap _ _ _, ?_⟩
    have hwA : truthyProgressWeights
        [⟨0, some 70, false⟩, ⟨1, some 75, false⟩, ⟨2, some 71, false⟩] = [70, 75, 71] := by
      simp only [truthyProgressWeights, List.filterMap_cons, List.filterMap_nil,
        List.filter_cons, List.filter_nil, bne_iff_ne, ne_eq]
      norm_num
    have hwB : truthyProgressWeights
        [⟨1, some 75, false⟩, ⟨0, some 70, false⟩, ⟨2, some 71, false⟩] = [75, 70, 71] := by
      simp only [truthyProgressWeights, List.filterMap_cons, List.filterMap_nil,
        List.filter_cons, List.filter_nil, bne_iff_ne, ne_eq]
      norm_num
    have hA : (calculateTrends
        [⟨0, some 70, false⟩, ⟨1, some 75, false⟩, ⟨2, some 71, false⟩]).trend =
        "increasing" := by
      unfold calculateTrends
      rw [if_neg (by norm_num), hwA]
      norm_num
    have hB : (calculateTrends
        [⟨1, some 75, false⟩, ⟨0, some 70, false⟩, ⟨2, some 71, false⟩]).trend =
        "decreasing" := by
      unfold calculateTrends
      rw [if_neg (by norm_num), hwB]
      norm_num
    intro hcontra
    have htr := congrArg TrendsResult.trend hcontra
    rw [hA, hB] at htr
    exact absurd htr (by decide)

/-- Witness for `trend_reads_only_weight_sequence`: two series with the
same weights at different timestamps give identical trend results. -/
theorem trend_reads_only_weight_sequence_witness :
    ([⟨1, some 70⟩, ⟨2, some 71⟩] : List WeightLog).map (fun l => l.weight) =
      ([⟨5, some 70⟩, ⟨9, some 71⟩] : List WeightLog).map (fun l => l.weight) ∧
    calculateWeightTrend [⟨1, some 70⟩, ⟨2, some 71⟩] =
      calculateWeightTrend [⟨5, some 70⟩, ⟨9, some 71⟩] :=
  ⟨rfl, trend_reads_only_weight_sequence.1 _ _ rfl⟩

/-- C5 (counterexample): `calculateWeightTrend` does not sort internally:
the series `(t=1,70), (t=2,75), (t=3,71)` and its permutation
`(t=2,75), (t=1,70), (t=3,71)` give different results ("increasing" with
slope 1/2 versus "decreasing" with slope -2), refuting order-invariance of
the trend calculation as implemented. -/
theorem calculateWeightTrend_order_dependent :
    ([⟨1, some 70⟩, ⟨2, some 75⟩, ⟨3, some 71⟩] : List WeightLog).Perm
      [⟨2, some 75⟩, ⟨1, some 70⟩, ⟨3, some 71⟩] ∧
    calculateWeightTrend [⟨1, some 70⟩, ⟨2, some 75⟩, ⟨3, some 71⟩] ≠
      calculateWeightTrend [⟨2, some 75⟩, ⟨1, some 70⟩, ⟨3, some 71⟩] := by
  constructor
  · exact List.Perm.swap _ _ _
  · have hwA : truthyWeights [⟨1, some 70⟩, ⟨2, some 75⟩, ⟨3, some 71⟩] = [70, 75, 71] := by
      simp only [truthyWeights, List.filterMap_cons, List.filterMap_nil,
        List.filter_cons, List.filter_nil, bne_iff_ne, ne_eq]
      norm_num
    have hwB : truthyWeights [⟨2, some 75⟩, ⟨1, some 70⟩, ⟨3, some 71⟩] = [75, 70, 71] := by
      simp only [truthyWeights, List.filterMap_cons, List.filterMap_nil,
        List.filter_cons, List.filter_nil, bne_iff_ne, ne_eq]
      norm_num
    have hA : olsSlope [70, 75, 71] = 1/2 := by
      unfold olsSlope
      norm_num [Finset.sum_range_succ]
    have hB : olsSlope [75, 70, 71] = -2 := by
      unfold olsSlope
      norm_num [Finset.sum_range_succ]
    rw [calculateWeightTrend_eq_ols _ (by rw [hwA]; norm_num),
      calculateWeightTrend_eq_ols _ (by rw [hwB]; norm_num), hwA, hwB, hA, hB]
    norm_num

/-! ### Theorems for claim C8 -/

/-- C8 (amended): in `NutritionController.calculateNutritionStats` the
`consistency` metric equals the length of the longest run of
calendar-consecutive days (exactly 1 calendar day apart; any gap — and a
repeated day — resets the run) in the timestamp-sorted log sequence, and in
particular entries on day 1, day 2 and day 4 yield a streak of 2.
(`AIService.calculateConsistency` is not a streak at all: it returns a
rounded percentage of entries with `workoutCompleted`; see the
counterexample.) -/
theorem nutrition_consistency_is_longest_run :
    (∀ logs : List NutritionLog,
      (calculateNutritionStats logs).consistency =
        maxRun ((sortNutritionByTs logs).map (fun l => calDay l.ts))) ∧
    (calculateNutritionStats
      [{ ts := 86400000 }, { ts := 172800000 }, { ts := 345600000 }]).consistency = 2 := by
  have hmain : ∀ logs : List NutritionLog,
      (calculateNutritionStats logs).consistency =
        maxRun ((sortNutritionByTs logs).map (fun l => calDay l.ts)) := by
    intro logs
    unfold calculateNutritionStats
    by_cases h : logs.length = 0
    · rw [if_pos h]
      have hnil : logs = [] := List.length_eq_zero.mp h
      subst hnil
      simp [sortNutritionByTs, List.insertionSort, maxRun]
    · rw [if_neg h]
      exact streakGo_eq_maxRun _
  refine ⟨hmain, ?_⟩
  rw [hmain]
  decide

/-- C8 (counterexample): `AIService.calculateConsistency` on three
completed-workout entries dated day 1, day 2 and day 4 returns the
percentage 100, not the longest consecutive-day streak 2, so the claim that
every consistency metric in the advisory subsystem is the longest
consecutive-day run is false. -/
theorem aiservice_consistency_is_percentage :
    calculateConsistency
      [{ ts := 86400000, workoutCompleted := true },
       { ts := 172800000, workoutCompleted := true },
       { ts := 345600000, workoutCompleted := true }] = 100 ∧
    (100 : ℤ) ≠ 2 := by
  constructor
  · unfold calculateConsistency jsRound
    simp only [List.filter_cons, List.filter_nil]
    norm_num
  · decide

/-! ### Theorems for claim C2 -/

/-- C2 (amended): `AIService.callAIAPI` never propagates a failure: every
failing outcome (network error, non-2xx status, malformed body, empty
candidate/part list) yields `getFallbackResponse prompt`, whose keyword
scan consults only the Spanish keywords — a prompt containing
"entrenamiento" yields the canned workout-plan JSON (whose `weekPlan`
array is non-empty), otherwise one containing "nutrición" yields the
canned nutrition JSON, and any other prompt yields the one-line generic
encouragement.  (The English keywords "workout"/"nutrition" named by the
claim are not consulted; see the counterexample.) -/
theorem callAIAPI_fallback (prompt : String) (o : ApiOutcome)
    (hfail : isApiFailure o = true) :
    callAIAPI o prompt = getFallbackResponse prompt ∧
    (strIncludes prompt "entrenamiento" = true →
      getFallbackResponse prompt = Json.stringify workoutFallback) ∧
    (strIncludes prompt "entrenamiento" = false →
      strIncludes prompt "nutrición" = true →
      getFallbackResponse prompt = Json.stringify nutritionFallback) ∧
    (strIncludes prompt "entrenamiento" = false →
      strIncludes prompt "nutrición" = false →
      getFallbackResponse prompt = genericFallback) ∧
    (∃ (x : Json) (xs : List Json),
      workoutFallback.getField "weekPlan" = some (Json.arr (x :: xs))) := by
  refine ⟨?_, ?_, ?_, ?_, ⟨_, _, rfl⟩⟩
  · cases o with
    | ok body =>
      simp only [callAIAPI, isApiFailure] at hfail ⊢
      cases hbody : extractFirstText body with
      | some t => rw [hbody] at hfail; simp at hfail
      | none => rfl
    | netErr => rfl
    | badStatus c => rfl
    | badJson => rfl
  · intro h
    unfold getFallbackResponse
    rw [if_pos h]
  · intro h1 h2
    unfold getFallbackResponse
    rw [if_neg (by simp [h1]), if_pos h2]
  · intro h1 h2
    unfold getFallbackResponse
    rw [if_neg (by simp [h1]), if_neg (by simp [h2])]

/-- Witness for `callAIAPI_fallback`: a network error on a Spanish workout
prompt returns the canned workout JSON. -/
theorem callAIAPI_fallback_witness :
    isApiFailure ApiOutcome.netErr = true ∧
    callAIAPI ApiOutcome.netErr "Quiero un plan de entrenamiento" =
      Json.stringify workoutFallback := by
  have h := callAIAPI_fallback "Quiero un plan de entrenamiento" ApiOutcome.netErr rfl
  exact ⟨rfl, h.1.trans (h.2.1 (by decide))⟩

/-- C2 (counterexample): a failing call whose prompt contains the English
keyword "workout" (and neither Spanish keyword) returns the generic
one-line encouragement, not the canned workout-plan JSON, refuting the
claimed "workout" → workout-JSON mapping. -/
theorem workout_keyword_not_matched :
    callAIAPI ApiOutcome.netErr "Please build me a workout plan" = genericFallback ∧
    genericFallback ≠ Json.stringify workoutFallback := by
  constructor
  · unfold callAIAPI getFallbackResponse
    rw [if_neg (by decide), if_neg (by decide)]
  · decide

/-! ### Theorems for claim C9 -/

/-- C9 (amended): `extractRecommendations` is total.  When `JSON.parse`
fails — or yields `null`, on which the subsequent property access throws
into the same catch — it returns the array of at most the first 3 sentence
fragments whose trimmed length exceeds 10.  When the parse yields any other
value it returns `parsed.recommendations || parsed.tips || []`: the
`recommendations` field is returned as-is whenever truthy (not necessarily
an array — see the counterexample), else the truthy `tips` field, else the
empty array. -/
theorem extractRecommendations_total (parsed : Option Json) (raw : String)
    (j : Json) (hnull : parsed = none ∨ parsed = some Json.null) (hj : j ≠ Json.null) :
    (extractRecommendations parsed raw =
      Json.arr ((extractFallbackSentences raw).map Json.str) ∧
      (extractFallbackSentences raw).length ≤ 3 ∧
      ∀ s ∈ extractFallbackSentences raw, 10 < (jsTrim s).length) ∧
    extractRecommendations (some j) raw =
      jsOr (j.getField "recommendations") (jsOr (j.getField "tips") (Json.arr [])) := by
  constructor
  · refine ⟨?_, ?_, ?_⟩
    · rcases hnull with h | h <;> rw [h] <;> rfl
    · exact List.length_take_le 3 _
    · intro s hs
      have hs' := List.take_subset 3 _ hs
      have := (List.mem_filter.mp hs').2
      exact of_decide_eq_true this
  · cases j with
    | null => exact absurd rfl hj
    | bool b => rfl
    | num n => rfl
    | str s => rfl
    | arr xs => rfl
    | obj fs => rfl

/-- Witness for `extractRecommendations_total`: a non-JSON response is cut
into at most 3 long-enough fragments, and a JSON response with a truthy
`tips` array returns that array. -/
theorem extractRecommendations_total_witness :
    extractRecommendations none "Primera frase suficientemente larga. si. Segunda frase tambien larga!" =
      Json.arr [Json.str "Primera frase suficientemente larga",
        Json.str " Segunda frase tambien larga"] ∧
    extractRecommendations (some (Json.obj [("tips", Json.arr [Json.str "a"])])) "x" =
      Json.arr [Json.str "a"] := by
  have h := extractRecommendations_total none
    "Primera frase suficientemente larga. si. Segunda frase tambien larga!"
    (Json.obj [("tips", Json.arr [Json.str "a"])]) (Or.inl rfl) (by simp)
  constructor
  · rw [h.1.1]
    rfl
  · have h2 := extractRecommendations_total none "x"
      (Json.obj [("tips", Json.arr [Json.str "a"])]) (Or.inl rfl) (by simp)
    rw [h2.2]
    rfl

/-- C9 (counterexample): on the JSON response `{"recommendations":5}` the
function returns the number 5 itself — not an array — refuting the claim
that `extractRecommendations` always returns an array. -/
theorem extractRecommendations_nonarray :
    extractRecommendations (some (Json.obj [("recommendations", Json.num 5)]))
        "\x7b\"recommendations\":5\x7d" = Json.num 5 ∧
    Json.isArr (Json.num 5) = false :=
  ⟨rfl, rfl⟩

/-! ### Theorems for claim C10 -/

/-- C10 (amended): `DatabaseService.insert` generates `id`, `createdAt` and
`updatedAt` when the supplied value is absent *or otherwise falsy* (the
check is `if (!data.id)`, so an empty-string id is regenerated — see the
counterexample); truthy supplied values are returned exactly as given, and
every field outside these three is preserved unchanged, with no field
added or removed. -/
theorem insert_preserves_fields (data : JsRecord) (genId nowC nowU : String) :
    (optTruthy (jsGet data "id") = true →
      jsGet (insertRecord data genId nowC nowU) "id" = jsGet data "id") ∧
    (optTruthy (jsGet data "id") = false →
      jsGet (insertRecord data genId nowC nowU) "id" = some (Json.str genId)) ∧
    (optTruthy (jsGet data "createdAt") = true →
      jsGet (insertRecord data genId nowC nowU) "createdAt" = jsGet data "createdAt") ∧
    (optTruthy (jsGet data "createdAt") = false →
      jsGet (insertRecord data genId nowC nowU) "createdAt" = some (Json.str nowC)) ∧
    (optTruthy (jsGet data "updatedAt") = true →
      jsGet (insertRecord data genId nowC nowU) "updatedAt" = jsGet data "updatedAt") ∧
    (optTruthy (jsGet data "updatedAt") = false →
      jsGet (insertRecord data genId nowC nowU) "updatedAt" = some (Json.str nowU)) ∧
    (∀ f : String, f ≠ "id" → f ≠ "createdAt" → f ≠ "updatedAt" →
      jsGet (insertRecord data genId nowC nowU) f = jsGet data f) := by
  have hic : ("id" : String) ≠ "createdAt" := by decide
  have hiu : ("id" : String) ≠ "updatedAt" := by decide
  have hcu : ("createdAt" : String) ≠ "updatedAt" := by decide
  have hid : jsGet (insertRecord data genId nowC nowU) "id" =
      if optTruthy (jsGet data "id") then jsGet data "id" else some (Json.str genId) := by
    unfold insertRecord
    rw [jsGet_jsSetIfFalsy_ne _ _ _ _ hiu, jsGet_jsSetIfFalsy_ne _ _ _ _ hic,
      jsGet_jsSetIfFalsy_self]
  have hca : jsGet (insertRecord data genId nowC nowU) "createdAt" =
      if optTruthy (jsGet data "createdAt") then jsGet data "createdAt"
      else some (Json.str nowC) := by
    unfold insertRecord
    rw [jsGet_jsSetIfFalsy_ne _ _ _ _ hcu, jsGet_jsSetIfFalsy_self,
      jsGet_jsSetIfFalsy_ne _ _ _ _ (Ne.symm hic)]
  have hua : jsGet (insertRecord data genId nowC nowU) "updatedAt" =
      if optTruthy (jsGet data "updatedAt") then jsGet data "updatedAt"
      else some (Json.str nowU) := by
    unfold insertRecord
    rw [jsGet_jsSetIfFalsy_self, jsGet_jsSetIfFalsy_ne _ _ _ _ (Ne.symm hcu),
      jsGet_jsSetIfFalsy_ne _ _ _ _ (Ne.symm hiu)]
  refine ⟨fun h => by rw [hid, if_pos h], fun h => by rw [hid, if_neg (by simp [h])],
    fun h => by rw [hca, if_pos h], fun h => by rw [hca, if_neg (by simp [h])],
    fun h => by rw [hua, if_pos h], fun h => by rw [hua, if_neg (by simp [h])],
    fun f hf1 hf2 hf3 => ?_⟩
  unfold insertRecord
  rw [jsGet_jsSetIfFalsy_ne _ _ _ _ hf3, jsGet_jsSetIfFalsy_ne _ _ _ _ hf2,
    jsGet_jsSetIfFalsy_ne _ _ _ _ hf1]

/-- Witness for `insert_preserves_fields`: a document with a truthy
supplied `id` and no timestamps keeps its `id` and `name`, and gets the
generated `createdAt`. -/
theorem insert_preserves_fields_witness :
    jsGet (insertRecord [("id", Json.str "u1"), ("name", Json.str "Ana")] "G" "c0" "u0")
        "id" = some (Json.str "u1") ∧
    jsGet (insertRecord [("id", Json.str "u1"), ("name", Json.str "Ana")] "G" "c0" "u0")
        "createdAt" = some (Json.str "c0") ∧
    jsGet (insertRecord [("id", Json.str "u1"), ("name", Json.str "Ana")] "G" "c0" "u0")
        "name" = some (Json.str "Ana") := by
  have h := insert_preserves_fields [("id", Json.str "u1"), ("name", Json.str "Ana")] "G" "c0" "u0"
  exact ⟨(h.1 rfl).trans rfl, h.2.2.2.1 rfl,
    h.2.2.2.2.2.2 "name" (by decide) (by decide) (by decide)⟩

/-- C10 (counterexample): a caller-supplied *empty-string* `id` is present
in the data yet regenerated (`if (!data.id)` is a falsy check, not an
absence check), so the returned record does not carry the supplied `id`
exactly as given. -/
theorem insert_regenerates_empty_id :
    jsGet (insertRecord [("id", Json.str ""), ("name", Json.str "x")] "G1" "t1" "t2")
        "id" = some (Json.str "G1") ∧
    Json.str "G1" ≠ Json.str "" := by
  constructor
  · rfl
  · intro h
    simp at h

/-! ### Theorems for claim C7 -/

/-- C7 (confirmed): for every intent template, a profile with valid
required fields renders every *profile-field* slot free of the tokens
"undefined" and "null", and each absent optional numeric field (age,
weight, height, initial weight) renders its literal Spanish
"not specified" placeholder.  Every part of every built prompt is either a
template literal, a profile slot, or a context interpolation — so no
profile field ever interpolates as "undefined"/"null". -/
theorem buildPrompt_placeholder_no_undef (u : UserData) (g e : String) (eqp : List String)
    (hg : u.goal = some g) (hge : g ∈ goalEnum)
    (he : u.experienceLevel = some e) (hee : e ∈ expEnum)
    (heq : u.equipment = some eqp)
    (hname : ∀ s, u.name = some s → s ≠ "undefined" ∧ s ≠ "null")
    (hact : ∀ s, u.activityLevel = some s → s ≠ "undefined" ∧ s ≠ "null") :
    (u.age = none → jsOrNum u.age "No especificada" = "No especificada") ∧
    (u.currentWeight = none →
      jsOrNum u.currentWeight "No especificado" = "No especificado") ∧
    (u.height = none → jsOrNum u.height "No especificada" = "No especificada") ∧
    (u.initialWeight = none →
      jsOrNum u.initialWeight "No especificado" = "No especificado") ∧
    (∀ s ∈ workoutProfileSlots u ++ nutritionProfileSlots u ++
        progressProfileSlots u ++ motivationProfileSlots u,
      s ≠ "undefined" ∧ s ≠ "null") ∧
    (∀ context : Json, ∀ s ∈ buildWorkoutPromptParts u context,
      s = Json.stringify context ∨ (s ≠ "undefined" ∧ s ≠ "null")) ∧
    (∀ nd : Json, ∀ s ∈ buildNutritionPromptParts u nd,
      s = Json.stringify nd ∨ (s ≠ "undefined" ∧ s ≠ "null")) ∧
    (∀ pd : Json, ∀ s ∈ buildProgressAnalysisPromptParts u pd,
      s = Json.stringify pd ∨ (s ≠ "undefined" ∧ s ≠ "null")) ∧
    (∀ context : Json, ∀ s ∈ buildMotivationPromptParts u context,
      s = Json.stringify context ∨ s = jsCtxOr context "consecutiveDays" "0" ∨
      s = jsCtxOr context "lastWorkout" "No especificado" ∨
      (s ≠ "undefined" ∧ s ≠ "null")) := by
  have hgoalS : jsStrOpt u.goal = g := by rw [hg]; rfl
  have hexpS : jsStrOpt u.experienceLevel = e := by rw [he]; rfl
  have hgne : g ≠ "undefined" ∧ g ≠ "null" :=
    ⟨fun hh => absurd (hh ▸ hge) (by decide), fun hh => absurd (hh ▸ hge) (by decide)⟩
  have hene : e ≠ "undefined" ∧ e ≠ "null" :=
    ⟨fun hh => absurd (hh ▸ hee) (by decide), fun hh => absurd (hh ▸ hee) (by decide)⟩
  have heqN : jsonArrOpt u.equipment ≠ "undefined" ∧ jsonArrOpt u.equipment ≠ "null" := by
    rw [heq]
    exact ⟨mk_bracket_ne _ "undefined" 'u' ['n', 'd', 'e', 'f', 'i', 'n', 'e', 'd']
        rfl (by decide),
      mk_bracket_ne _ "null" 'n' ['u', 'l', 'l'] rfl (by decide)⟩
  have hageN := jsOrNum_not_token u.age "No especificada" (by decide) (by decide)
  have hcwN := jsOrNum_not_token u.currentWeight "No especificado" (by decide) (by decide)
  have hhN := jsOrNum_not_token u.height "No especificada" (by decide) (by decide)
  have hiwN := jsOrNum_not_token u.initialWeight "No especificado" (by decide) (by decide)
  have hnameN := jsOrStr_not_token u.name "Usuario" (by decide) (by decide) hname
  have hactN := jsOrStr_not_token u.activityLevel "Moderado" (by decide) (by decide) hact
  have hslots : ∀ s ∈ workoutProfileSlots u ++ nutritionProfileSlots u ++
      progressProfileSlots u ++ motivationProfileSlots u,
      s ≠ "undefined" ∧ s ≠ "null" := by
    intro s hs
    simp only [workoutProfileSlots, nutritionProfileSlots, progressProfileSlots,
      motivationProfileSlots, List.mem_append, List.mem_cons,
      List.not_mem_nil, or_false] at hs
    rcases hs with (((rfl | rfl | rfl | rfl | rfl | rfl) |
        (rfl | rfl | rfl | rfl | rfl)) | (rfl | rfl | rfl)) | (rfl | rfl)
    · rw [hgoalS]; exact hgne
    · rw [hexpS]; exact hene
    · exact heqN
    · exact hageN
    · exact hcwN
    · exact hhN
    · rw [hgoalS]; exact hgne
    · exact hcwN
    · exact hhN
    · exact hageN
    · exact hactN
    · rw [hgoalS]; exact hgne
    · exact hiwN
    · exact hcwN
    · exact hnameN
    · rw [hgoalS]; exact hgne
  have hgoalN : jsStrOpt u.goal ≠ "undefined" ∧ jsStrOpt u.goal ≠ "null" := by
    rw [hgoalS]; exact hgne
  have hexpN : jsStrOpt u.experienceLevel ≠ "undefined" ∧
      jsStrOpt u.experienceLevel ≠ "null" := by
    rw [hexpS]; exact hene
  refine ⟨fun h => by rw [h]; rfl, fun h => by rw [h]; rfl, fun h => by rw [h]; rfl,
    fun h => by rw [h]; rfl, hslots, ?_, ?_, ?_, ?_⟩
  · intro ctx s hs
    simp only [buildWorkoutPromptParts, List.mem_cons, List.not_mem_nil, or_false] at hs
    rcases hs with rfl | rfl | rfl | rfl | rfl | rfl | rfl | rfl | rfl | rfl | rfl |
      rfl | rfl | rfl | rfl
    · exact Or.inr ⟨by decide, by decide⟩
    · exact Or.inr hgoalN
    · exact Or.inr ⟨by decide, by decide⟩
    · exact Or.inr hexpN
    · exact Or.inr ⟨by decide, by decide⟩
    · exact Or.inr heqN
    · exact Or.inr ⟨by decide, by decide⟩
    · exact Or.inr hageN
    · exact Or.inr ⟨by decide, by decide⟩
    · exact Or.inr hcwN
    · exact Or.inr ⟨by decide, by decide⟩
    · exact Or.inr hhN
    · exact Or.inr ⟨by decide, by decide⟩
    · exact Or.inl rfl
    · exact Or.inr ⟨by decide, by decide⟩
  · intro nd s hs
    simp only [buildNutritionPromptParts, List.mem_cons, List.not_mem_nil, or_false] at hs
    rcases hs with rfl | rfl | rfl | rfl | rfl | rfl | rfl | rfl | rfl | rfl | rfl |
      rfl | rfl
    · exact Or.inr ⟨by decide, by decide⟩
    · exact Or.inr hgoalN
    · exact Or.inr ⟨by decide, by decide⟩
    · exact Or.inr hcwN
    · exact Or.inr ⟨by decide, by decide⟩
    · exact Or.inr hhN
    · exact Or.inr ⟨by decide, by decide⟩
    · exact Or.inr hageN
    · exact Or.inr ⟨by decide, by decide⟩
    · exact Or.inr hactN
    · exact Or.inr ⟨by decide, by decide⟩
    · exact Or.inl rfl
    · exact Or.inr ⟨by decide, by decide⟩
  · intro pd s hs
    simp only [buildProgressAnalysisPromptParts, List.mem_cons,
      List.not_mem_nil, or_false] at hs
    rcases hs with rfl | rfl | rfl | rfl | rfl | rfl | rfl | rfl | rfl
    · exact Or.inr ⟨by decide, by decide⟩
    · exact Or.inr hgoalN
    · exact Or.inr ⟨by decide, by decide⟩
    · exact Or.inr hiwN
    · exact Or.inr ⟨by decide, by decide⟩
    · exact Or.inr hcwN
    · exact Or.inr ⟨by decide, by decide⟩
    · exact Or.inl rfl
    · exact Or.inr ⟨by decide, by decide⟩
  · intro ctx s hs
    simp only [buildMotivationPromptParts, List.mem_cons, List.not_mem_nil, or_false] at hs
    rcases hs with rfl | rfl | rfl | rfl | rfl | rfl | rfl | rfl | rfl | rfl | rfl
    · exact Or.inr (Or.inr (Or.inr ⟨by decide, by decide⟩))
    · exact Or.inr (Or.inr (Or.inr hnameN))
    · exact Or.inr (Or.inr (Or.inr ⟨by decide, by decide⟩))
    · exact Or.inr (Or.inr (Or.inr hgoalN))
    · exact Or.inr (Or.inr (Or.inr ⟨by decide, by decide⟩))
    · exact Or.inr (Or.inl rfl)
    · exact Or.inr (Or.inr (Or.inr ⟨by decide, by decide⟩))
    · exact Or.inr (Or.inr (Or.inl rfl))
    · exact Or.inr (Or.inr (Or.inr ⟨by decide, by decide⟩))
    · exact Or.inl rfl
    · exact Or.inr (Or.inr (Or.inr ⟨by decide, by decide⟩))

/-- Witness for `buildPrompt_placeholder_no_undef`: a concrete profile
with `muscle_gain`/`beginner`/dumbbells and no optional fields renders the
age placeholder and a goal slot free of "undefined". -/
theorem buildPrompt_placeholder_no_undef_witness :
    jsOrNum
      (({ goal := some "muscle_gain", experienceLevel := some "beginner",
          equipment := some ["mancuernas"] } : UserData).age)
      "No especificada" = "No especificada" ∧
    jsStrOpt
      (({ goal := some "muscle_gain", experienceLevel := some "beginner",
          equipment := some ["mancuernas"] } : UserData).goal) ≠ "undefined" := by
  have h := buildPrompt_placeholder_no_undef
    { goal := some "muscle_gain", experienceLevel := some "beginner",
      equipment := some ["mancuernas"] }
    "muscle_gain" "beginner" ["mancuernas"] rfl (by decide) rfl (by decide) rfl
    (by intro s hs; cases hs) (by intro s hs; cases hs)
  exact ⟨h.1 rfl, (h.2.2.2.2.1 _ (by simp [workoutProfileSlots])).1⟩

/-! ### Theorems for claim C6 -/

/-- C6 (confirmed): a failed persistence write in
`AIService.saveAISuggestion` is swallowed (the catch logs and does not
rethrow), so `generateWorkoutRecommendation` returns exactly the same
computed recommendation value as when the insert succeeds, and that value
is the success payload built from the gateway response. -/
theorem persistence_failure_swallowed (api : ApiOutcome) (genId now : String)
    (u : UserData) (ctx : Json) :
    (generateWorkoutRecommendationE ⟨api, false, genId, now⟩ u ctx).1 =
      (generateWorkoutRecommendationE ⟨api, true, genId, now⟩ u ctx).1 ∧
    (generateWorkoutRecommendationE ⟨api, false, genId, now⟩ u ctx).1 =
      Except.ok
        { recommendation := callAIAPI api (buildWorkoutPrompt u ctx),
          userGoal := u.goal, experienceLevel := u.experienceLevel,
          equipment := u.equipment } ∧
    Event.logError ∈ (generateWorkoutRecommendationE ⟨api, false, genId, now⟩ u ctx).2 := by
  refine ⟨?_, ?_, ?_⟩ <;>
    simp [generateWorkoutRecommendationE, callAIAPIE, saveAISuggestionE, dbInsertSuggestion]

/-! ### Theorem for claim C1 -/

/-- C1 (code bug): `AIController.getRecommendations` calls
`DatabaseService.findById('Users', user.id)` *without `await`*, so
`userData` is a pending Promise — which is truthy — and the
`if (!userData) throw notFoundError` check can never fire.  For a userId
that resolves to no stored profile the call therefore does **not** fail
with `NotFound`; it proceeds to call the external model exactly once and
performs the persistence write, contradicting the claim that the absent
profile short-circuits the flow before any external call or write. -/
theorem getRecommendations_notfound_never_fires :
    (ControllerEnv.mk ApiOutcome.netErr true "G" "T" []).users.lookup "u404" = none ∧
    isNotFoundErr (getRecommendationsE (ControllerEnv.mk ApiOutcome.netErr true "G" "T" [])
      (some "u404") "workout" (Json.obj [])).1 = false ∧
    (getRecommendationsE (ControllerEnv.mk ApiOutcome.netErr true "G" "T" [])
      (some "u404") "workout" (Json.obj [])).1.isOk = true ∧
    (getRecommendationsE (ControllerEnv.mk ApiOutcome.netErr true "G" "T" [])
      (some "u404") "workout" (Json.obj [])).2.count Event.aiApiCall = 1 ∧
    (getRecommendationsE (ControllerEnv.mk ApiOutcome.netErr true "G" "T" [])
      (some "u404") "workout" (Json.obj [])).2.count Event.dbInsertDone = 1 := by
  refine ⟨rfl, rfl, rfl, rfl, rfl⟩

end Somos
